import Mathlib

/-
Verification of the tg_bot_wash repository against its specification.

The Python sources are shallowly embedded as Lean definitions:
 - app/formatters.py : severity model, module-tree walk, is_bad_wash, revenue aggregation;
 - app/models/transactions.py : payment classification into revenue channels;
 - app/services/tms_client.py : the 401-retry fetch and the pagination loop, modelled
   over an explicit list of HTTP responses consumed in order;
 - app/bot.py : the poll cycle (_poll_and_send) as a pure function from the previous
   bad-state table and the fetch outcome to the new table plus emitted notifications.

Python strings are Lean strings; str.strip()/str.lower() are modelled over the
character list (pyStrip, pyLower) so that all definitions evaluate inside the kernel.
Decimal amount strings are abstracted to exact rationals (Option Rat, with none
standing for an absent or empty amount string, which Decimal conversion treats as 0).
-/

-- ================================================================
-- Python string primitives
-- ================================================================

/-- Characters stripped by Python str.strip(): ASCII whitespace. -/
def pyIsSpace (c : Char) : Bool :=
  c = ' ' || c = '\t' || c = '\n' || c = '\r' || c = '\x0b' || c = '\x0c'

/-- Python str.strip(), modelled over the character list. -/
def pyStrip (s : String) : String :=
  ⟨((s.data.dropWhile pyIsSpace).reverse.dropWhile pyIsSpace).reverse⟩

/-- Python str.lower(), modelled over the character list. -/
def pyLower (s : String) : String :=
  ⟨s.data.map Char.toLower⟩

/-- Python `a or b` on an optional string field: the left value when truthy
(present and non-empty), otherwise the fallback. -/
def pyOrStr (a : Option String) (b : String) : String :=
  match a with
  | some s => if s = "" then b else s
  | none => b

/-- Python `a or b` on optional integer ids (0 and missing are falsy). -/
def pyOrNat (a b : Option Nat) : Option Nat :=
  match a with
  | some n => if n = 0 then b else some n
  | none => b

-- ================================================================
-- app/formatters.py : severity model
-- ================================================================

/-- SEVERITY_RANK dict from app/formatters.py; .get(s, 0) semantics. -/
def SEVERITY_RANK (s : String) : Nat :=
  if s = "ok" then 0
  else if s = "online" then 0
  else if s = "warning" then 1
  else if s = "offline" then 1
  else if s = "alarm" then 2
  else if s = "error" then 2
  else 0

/-- _norm_status from app/formatters.py: falsy (absent or empty) maps to "ok",
otherwise strip and lowercase. -/
def _norm_status (s : Option String) : String :=
  match s with
  | none => "ok"
  | some s => if s = "" then "ok" else pyLower (pyStrip s)

/-- _worst from app/formatters.py: `a if SEVERITY_RANK.get(a, 0) >= SEVERITY_RANK.get(b, 0) else b`. -/
def _worst (a b : String) : String :=
  if SEVERITY_RANK a ≥ SEVERITY_RANK b then a else b

/-- _is_ignorable_warning from app/formatters.py: status normalizes to "warning"
and the text strips/lowercases to "connection failed". -/
def _is_ignorable_warning (status : Option String) (text : Option String) : Bool :=
  _norm_status status == "warning" && pyLower (pyStrip (text.getD "")) == "connection failed"

-- ================================================================
-- app/formatters.py : module tree and problem collection
-- ================================================================

mutual
/-- A module dict of the unit feed: id, name, full_name, status, text and the
nested "modules" list. A missing or None child list is modelled as the empty
forest, which the source treats identically (`if not mods: return`). -/
inductive ModuleNode where
  | mk (id name full_name status text : Option String) (modules : ModuleForest)

/-- The "modules" list of a unit or module, as a cons list so that the walk is
structurally recursive. -/
inductive ModuleForest where
  | nil
  | cons (m : ModuleNode) (rest : ModuleForest)
end

def ModuleNode.status : ModuleNode → Option String
  | .mk _ _ _ st _ _ => st

def ModuleNode.text : ModuleNode → Option String
  | .mk _ _ _ _ tx _ => tx

def ModuleNode.modules : ModuleNode → ModuleForest
  | .mk _ _ _ _ _ ms => ms

/-- A collected problem entry (display_name, status, text). -/
abbrev Problem := String × String × Option String

mutual
/-- The body of the loop of _collect_problem_modules for one module: the
module contributes an entry when its normalized status is not "ok" (name
falling back full_name, name, id, "module"), then the walk recurses into its
child list. -/
def collectModuleProblems : ModuleNode → List Problem
  | .mk i n fn st tx mods =>
    (if _norm_status st = "ok" then []
     else [(pyOrStr fn (pyOrStr n (pyOrStr i "module")), _norm_status st, tx)])
      ++ _collect_problem_modules mods

/-- _collect_problem_modules from app/formatters.py, returning the collected
entries instead of appending to an out parameter. -/
def _collect_problem_modules : ModuleForest → List Problem
  | .nil => []
  | .cons m rest => collectModuleProblems m ++ _collect_problem_modules rest
end

-- ================================================================
-- app/formatters.py : unit snapshots and is_bad_wash
-- ================================================================

/-- The "status" sub-object of a unit dict, with the fields the code reads. -/
structure WashStatus where
  type : Option String
  online_type : Option String
  modules : ModuleForest

/-- A unit snapshot dict, with the fields the code reads. -/
structure Wash where
  id : Option Nat
  unit_id : Option Nat
  location_name : Option String
  location : Option String
  address : Option String
  status : Option WashStatus
  modules : ModuleForest

/-- The source reads `wash.get("status") or` the empty dict: a missing status
sub-object behaves as an empty one. -/
def Wash.statusOrEmpty (w : Wash) : WashStatus :=
  w.status.getD ⟨none, none, .nil⟩

/-- is_bad_wash from app/formatters.py: collect problems from both module
lists, drop ignorable warnings; bad iff problems remain or the top-level
status.type or status.online_type normalizes to "error". -/
def is_bad_wash (w : Wash) : Bool :=
  let status := w.statusOrEmpty
  let problems := _collect_problem_modules w.modules ++ _collect_problem_modules status.modules
  let problems := problems.filter (fun p => ! _is_ignorable_warning (some p.2.1) p.2.2)
  if ¬ problems.isEmpty then true
  else _norm_status status.type == "error" || _norm_status status.online_type == "error"

/-- _worst_status_for_wash from app/formatters.py: fold _worst over
status.type, status.online_type and every collected (unfiltered) problem
status; a falsy (empty) result becomes "ok". -/
def _worst_status_for_wash (w : Wash) : String :=
  let status := w.statusOrEmpty
  let worst := _worst (_norm_status status.type) (_norm_status status.online_type)
  let tmp := _collect_problem_modules w.modules ++ _collect_problem_modules status.modules
  let worst := tmp.foldl (fun acc p => _worst acc (_norm_status (some p.2.1))) worst
  if worst = "" then "ok" else worst

-- ================================================================
-- app/models/transactions.py
-- ================================================================

/-- Revenue channels from app/models/transactions.py. -/
inductive RevenueChannel where
  | CASH
  | CARD
  | YANDEX_WASH
deriving DecidableEq, Repr

/-- CashBody: only its presence matters to the classification logic. -/
structure CashBody where
  amount : Option String
  type : Option String

/-- CashlessBody: the classification logic reads only the issuer; the other
optional metadata fields of the source model are not referenced by any claim. -/
structure CashlessBody where
  amount : Option String
  type : Option String
  issuer : Option String

/-- Payment from app/models/transactions.py. Amount strings are abstracted to
exact rationals; none stands for an absent or empty string. -/
structure Payment where
  approved : Bool
  cash_amount : Option Rat
  cash_body : Option CashBody
  cashless_amount : Option Rat
  cashless_body : Option CashlessBody

/-- Payment._to_decimal: None or the empty string convert to 0, any other
decimal string to its exact value. -/
def Payment._to_decimal (s : Option Rat) : Rat :=
  s.getD 0

/-- Payment.amount_and_channel from app/models/transactions.py:
not approved gives (0, none); a present cash_body gives the cash amount on
CASH; otherwise a present cashless_body gives the cashless amount on
YANDEX_WASH when the stripped issuer lowercases to "yandex.wash", else CARD;
otherwise (0, none). -/
def Payment.amount_and_channel (p : Payment) : Rat × Option RevenueChannel :=
  if ¬ p.approved then (0, none)
  else
    match p.cash_body with
    | some _ => (Payment._to_decimal p.cash_amount, some .CASH)
    | none =>
      match p.cashless_body with
      | some body =>
        let issuer := pyStrip (body.issuer.getD "")
        let amt := Payment._to_decimal p.cashless_amount
        if pyLower issuer == "yandex.wash" then (amt, some .YANDEX_WASH)
        else (amt, some .CARD)
      | none => (0, none)

/-- TransactionItem, with the fields the revenue logic reads; the remaining
optional metadata fields of the source model are not referenced by any claim. -/
structure TransactionItem where
  cancelled : Bool
  id : Int
  payment : Payment

/-- TransactionItem.revenue_amount_and_channel: a cancelled transaction
contributes (0, none), otherwise defer to the payment. -/
def TransactionItem.revenue_amount_and_channel (t : TransactionItem) : Rat × Option RevenueChannel :=
  if t.cancelled then (0, none) else t.payment.amount_and_channel

-- ================================================================
-- app/formatters.py : revenue aggregation
-- ================================================================

/-- RevenueReport from app/formatters.py. -/
structure RevenueReport where
  cash : Rat
  card : Rat
  yandex_wash : Rat
deriving DecidableEq, Repr

/-- RevenueReport.total. -/
def RevenueReport.total (r : RevenueReport) : Rat :=
  r.cash + r.card + r.yandex_wash

/-- aggregate_revenue from app/formatters.py: skip records with no channel or
a non-positive amount, otherwise add the amount to the record's channel. -/
def aggregate_revenue (ts : List TransactionItem) : RevenueReport :=
  ts.foldl
    (fun rep t =>
      let ac := t.revenue_amount_and_channel
      match ac.2 with
      | none => rep
      | some ch =>
        if ac.1 ≤ 0 then rep
        else
          match ch with
          | .CASH => { rep with cash := rep.cash + ac.1 }
          | .CARD => { rep with card := rep.card + ac.1 }
          | .YANDEX_WASH => { rep with yandex_wash := rep.yandex_wash + ac.1 })
    ⟨0, 0, 0⟩

/-- The amount the aggregate_revenue loop adds to channel ch for a single
transaction: its classified amount when the record classifies to ch with a
positive amount, 0 otherwise. -/
def revenueContribution (t : TransactionItem) (ch : RevenueChannel) : Rat :=
  let ac := t.revenue_amount_and_channel
  match ac.2 with
  | none => 0
  | some c => if ac.1 ≤ 0 then 0 else if c = ch then ac.1 else 0

-- ================================================================
-- app/services/tms_client.py : fetch_units with 401 retry
-- ================================================================

/-- An HTTP response to one request, reduced to what the client logic reads. -/
structure HttpResp where
  status : Nat
  body : String
deriving DecidableEq, Repr

/-- httpx raise_for_status succeeds exactly on 2xx responses. -/
def is2xx (code : Nat) : Bool :=
  200 ≤ code && code < 300

/-- A terminal failure of a client call: the transport produced no further
response, or raise_for_status raised for the given status code (401 plays the
AuthenticationFailed role of the spec). -/
inductive FetchErr where
  | noResponse
  | httpStatus (code : Nat)
deriving DecidableEq, Repr

/-- TMSClient.fetch_units from app/services/tms_client.py, over the list of
responses the server returns to successive requests. On a 401 with a fresh
_retried flag the client refreshes the token (one sign_in call, counted in the
second component) and reissues the request; otherwise raise_for_status yields
the response on 2xx and an error on anything else. -/
def fetch_units : List HttpResp → Bool → Except FetchErr HttpResp × Nat
  | [], _ => (.error .noResponse, 0)
  | r :: rest, retried =>
    if r.status == 401 && !retried then
      let out := fetch_units rest true
      (out.1, out.2 + 1)
    else if is2xx r.status then (.ok r, 0)
    else (.error (.httpStatus r.status), 0)

-- ================================================================
-- app/services/tms_client.py : fetch_transactions pagination
-- ================================================================

/-- One transactions response: HTTP status, the page items (opaque payloads)
and the optional next_id token. -/
structure TPage where
  status : Nat
  items : List String
  next_id : Option String
deriving DecidableEq, Repr

/-- Python truthiness of the next_id token: present and non-empty. -/
def tokTruthy : Option String → Bool
  | some s => s != ""
  | none => false

/-- The pagination loop of TMSClient.fetch_transactions, over the list of
responses the server returns to successive requests. Returns the next-id
parameter sent with each request (none on the first), the number of sign_in
calls, and either the accumulated items or the terminal error. A 401 with a
fresh _retried flag restarts the whole call (fresh accumulator and token)
after one token refresh; a non-2xx response raises; a truthy next_id loops,
sending the token back; otherwise the accumulated items are returned. -/
def fetch_transactions_go :
    List TPage → Bool → Option String → List String → List (Option String) →
    List (Option String) × Nat × Except FetchErr (List String)
  | [], _, tok, _, sent => (sent ++ [tok], 0, .error .noResponse)
  | p :: rest, retried, tok, acc, sent =>
    if p.status == 401 && !retried then
      let out := fetch_transactions_go rest true none [] (sent ++ [tok])
      (out.1, out.2.1 + 1, out.2.2)
    else if is2xx p.status then
      let acc1 := acc ++ p.items
      if tokTruthy p.next_id then
        fetch_transactions_go rest retried p.next_id acc1 (sent ++ [tok])
      else (sent ++ [tok], 0, .ok acc1)
    else (sent ++ [tok], 0, .error (.httpStatus p.status))

/-- TMSClient.fetch_transactions: start the pagination loop unretried, with no
next-id token and empty accumulators. -/
def fetch_transactions (pages : List TPage) :
    List (Option String) × Nat × Except FetchErr (List String) :=
  fetch_transactions_go pages false none [] []

-- ================================================================
-- app/bot.py : fingerprint and the poll cycle
-- ================================================================

/-- Modelled from the spec: `worst_status_for_wash_public` is imported by
app/bot.py but is not defined in app/formatters.py; per the spec the
fingerprint starts from the worst severity folded over the top-level statuses
and the walked module tree, which is _worst_status_for_wash. -/
def worst_status_for_wash_public (w : Wash) : String :=
  _worst_status_for_wash w

/-- Deduplication of problem entries by (name, status, text-or-empty), keeping
first occurrences in order, as in format_washes. -/
def dedupProblems (ps : List Problem) : List Problem :=
  (ps.foldl
    (fun acc p =>
      let key := (p.1, p.2.1, (p.2.2).getD "")
      if acc.2.contains key then acc else (acc.1 ++ [p], acc.2 ++ [key]))
    ([], [])).1

/-- Modelled from the spec: `problem_modules_filtered_public` is imported by
app/bot.py but is not defined in app/formatters.py; per the spec the
fingerprint is built from the ordered, deduplicated problem entries of both
module lists that survive suppression. -/
def problem_modules_filtered_public (w : Wash) : List Problem :=
  let problems := _collect_problem_modules w.modules
    ++ _collect_problem_modules w.statusOrEmpty.modules
  dedupProblems (problems.filter (fun p => ! _is_ignorable_warning (some p.2.1) p.2.2))

/-- _fingerprint from app/bot.py: "worst=" plus the worst status, then each
problem entry as name:status or name:status:text (text when truthy), joined
with the bar delimiter. -/
def _fingerprint (w : Wash) : String :=
  let worst := worst_status_for_wash_public w
  let mods := problem_modules_filtered_public w
  let parts := ("worst=" ++ worst) :: mods.map (fun p =>
    match p.2.2 with
    | some t => if t ≠ "" then p.1 ++ ":" ++ p.2.1 ++ ":" ++ t else p.1 ++ ":" ++ p.2.1
    | none => p.1 ++ ":" ++ p.2.1)
  String.intercalate "|" parts

/-- Insertion into a Python dict modelled as an ordered association list:
assigning to an existing key overwrites in place, a new key appends. -/
def dictInsert (d : List (Nat × String)) (k : Nat) (v : String) : List (Nat × String) :=
  if (d.lookup k).isSome then d.map (fun p => if p.1 = k then (k, v) else p)
  else d ++ [(k, v)]

/-- The truthy unit id of a wash: `w.get("id") or w.get("unit_id")`, skipped
when falsy. -/
def washUnitId (w : Wash) : Option Nat :=
  match pyOrNat w.id w.unit_id with
  | some n => if n = 0 then none else some n
  | none => none

/-- The display name of a wash: location_name, location, address, then the
literal "ID " plus the unit id. -/
def washName (w : Wash) (uid : Nat) : String :=
  pyOrStr w.location_name (pyOrStr w.location (pyOrStr w.address ("ID " ++ toString uid)))

/-- The loop of _poll_and_send over the fetched washes: build current_bad
(unit id to fingerprint, bad washes only) and id2name (unit id to display
name), skipping washes without a truthy id. -/
def evalWashes (data : List Wash) : List (Nat × String) × List (Nat × String) :=
  data.foldl
    (fun acc w =>
      match washUnitId w with
      | none => acc
      | some uid =>
        let id2name := dictInsert acc.2 uid (washName w uid)
        let cur := if is_bad_wash w then dictInsert acc.1 uid (_fingerprint w) else acc.1
        (cur, id2name))
    ([], [])

/-- The notifications _poll_and_send can emit, with the message bodies the
claims constrain made structural: recovered and changed messages carry the
listed (unit id, display name) pairs; the problems summary body and the exact
wording of the other messages are outside the claims. -/
inductive Notification where
  | configWashIds
  | configCreds
  | problems
  | recovered (lines : List (Nat × String))
  | changed (lines : List (Nat × String))
  | pollError (msg : String)
deriving DecidableEq, Repr

def Notification.isRecovered : Notification → Bool
  | .recovered _ => true
  | _ => false

/-- The configuration fields _poll_and_send checks before fetching. -/
structure PollConfig where
  wash_ids : List Nat
  tms_email : String
  tms_password : String

/-- The current bad-state table a successful cycle computes. -/
def currentBadOf (data : List Wash) : List (Nat × String) :=
  (evalWashes data).1

/-- The display name a unit is listed under in the recovered and changed
messages: its name from the current cycle when seen, otherwise the literal
"ID " plus its id. -/
def recoveredNameOf (data : List Wash) (uid : Nat) : String :=
  ((evalWashes data).2.lookup uid).getD ("ID " ++ toString uid)

/-- The unit ids that recovered: present in the previous table, absent from
the current one. -/
def recoveredIdsOf (prev : List (Nat × String)) (data : List Wash) : List Nat :=
  (prev.map Prod.fst).filter (fun i => ((currentBadOf data).lookup i).isNone)

/-- The changed lines: units bad in both tables whose old fingerprint is
truthy and differs from the new one. -/
def changedLinesOf (prev : List (Nat × String)) (data : List Wash) : List (Nat × String) :=
  (currentBadOf data).filterMap (fun p =>
    match prev.lookup p.1 with
    | some oldFp =>
      if oldFp ≠ "" ∧ oldFp ≠ p.2 then some (p.1, recoveredNameOf data p.1) else none
    | none => none)

/-- _poll_and_send from app/bot.py as a function of the previous bad-state
table and the outcome of the unit fetch: unset configuration emits one
notification and stops; a fetch error lands in the except branch, leaving the
table unchanged and emitting one error notification; otherwise the washes are
evaluated, the problems summary is sent when current_bad is non-empty, the
recovered units (previously bad, no longer bad) are sent as one batched
message, the changed units (bad in both tables with a different, truthy old
fingerprint) as another, and current_bad replaces the table. -/
def _poll_and_send (cfg : PollConfig) (prev : List (Nat × String))
    (fetch : Except String (List Wash)) : List (Nat × String) × List Notification :=
  if cfg.wash_ids.isEmpty then (prev, [.configWashIds])
  else if cfg.tms_email == "" || cfg.tms_password == "" then (prev, [.configCreds])
  else
    match fetch with
    | .error e => (prev, [.pollError e])
    | .ok data =>
      let currentBad := currentBadOf data
      let problemsMsgs := if currentBad.isEmpty then [] else [Notification.problems]
      let recoveredIds := recoveredIdsOf prev data
      let recoveredMsgs :=
        if recoveredIds.isEmpty then []
        else [Notification.recovered
          (recoveredIds.map (fun uid => (uid, recoveredNameOf data uid)))]
      let changedLines := changedLinesOf prev data
      let changedMsgs :=
        if changedLines.isEmpty then [] else [Notification.changed changedLines]
      (currentBad, problemsMsgs ++ recoveredMsgs ++ changedMsgs)

-- ================================================================
-- Spec-side definitions used to state the claims
-- ================================================================

mutual
/-- A module is clean when its normalized status is "ok" and all of its
descendants are clean. -/
def ModuleNode.allClean : ModuleNode → Bool
  | .mk _ _ _ st _ mods => (_norm_status st == "ok") && ModuleForest.allClean mods

/-- Every node of the forest, descendants included, is clean. -/
def ModuleForest.allClean : ModuleForest → Bool
  | .nil => true
  | .cons m rest => m.allClean && ModuleForest.allClean rest
end

mutual
/-- The number of nodes in the tree rooted at a module whose normalized
status is not "ok". -/
def ModuleNode.uncleanCount : ModuleNode → Nat
  | .mk _ _ _ st _ mods =>
    (if _norm_status st = "ok" then 0 else 1) + ModuleForest.uncleanCount mods

/-- The number of nodes in the forest whose normalized status is not "ok". -/
def ModuleForest.uncleanCount : ModuleForest → Nat
  | .nil => 0
  | .cons m rest => m.uncleanCount + ModuleForest.uncleanCount rest
end

/-- The suppression rule as the claim words it: severity "warning" and text
"connection failed", compared case/whitespace-insensitively. -/
def suppressedPerClaim (sev : String) (text : Option String) : Bool :=
  pyLower (pyStrip sev) == "warning" && pyLower (pyStrip (text.getD "")) == "connection failed"

/-- The problem entries of a unit per the claim: collected from both the
top-level module list and the status sub-object module list, with suppressed
entries removed. -/
def washProblemsPerClaim (w : Wash) : List Problem :=
  (_collect_problem_modules w.modules ++ _collect_problem_modules w.statusOrEmpty.modules).filter
    (fun p => ! suppressedPerClaim p.2.1 p.2.2)

/-- The bad-unit predicate exactly as the claim states it: surviving problem
entries remain, or the top-level severity reaches the critical rank (rank 2). -/
def is_bad_wash_claimed (w : Wash) : Bool :=
  ! (washProblemsPerClaim w).isEmpty
  || SEVERITY_RANK (_norm_status w.statusOrEmpty.type) == 2
  || SEVERITY_RANK (_norm_status w.statusOrEmpty.online_type) == 2

/-- The amended bad-unit predicate: surviving problem entries remain, or the
top-level status.type or status.online_type normalizes to exactly "error". -/
def is_bad_wash_amended (w : Wash) : Bool :=
  ! (washProblemsPerClaim w).isEmpty
  || _norm_status w.statusOrEmpty.type == "error"
  || _norm_status w.statusOrEmpty.online_type == "error"

-- ================================================================
-- Concrete inputs for counterexamples and witnesses
-- ================================================================

/-- A unit whose only signal is a top-level status.type of "alarm": critical
rank, yet not the literal "error". -/
def alarmOnlyWash : Wash :=
  ⟨some 7, none, some "Wash 7", none, none, some ⟨some "alarm", none, .nil⟩, .nil⟩

/-- A unit with id 1 and no problems at all. -/
def cleanWash1 : Wash :=
  ⟨some 1, none, some "Wash One", none, none, none, .nil⟩

/-- A poll configuration with ids and credentials set. -/
def pollCfg : PollConfig :=
  ⟨[1], "ops", "secret"⟩

/-- A cancelled transaction that nevertheless carries approved payment data
with both amounts present. -/
def cancelledTx : TransactionItem :=
  ⟨true, 10, ⟨true, some 300, some ⟨some "300.00", some "CASH"⟩, some 150, some ⟨some "150.00", some "CASHLESS", some "VISA"⟩⟩⟩

/-- An approved, non-cancelled transaction carrying both a cash body and a
cashless body with a partner issuer. -/
def bothBodiesTx : TransactionItem :=
  ⟨false, 11, ⟨true, some 300, some ⟨some "300.00", some "CASH"⟩, some 150, some ⟨some "150.00", some "CASHLESS", some "Yandex.Wash"⟩⟩⟩

/-- Three synthetic transaction pages: the first two carry a next_id token,
the last does not. -/
def tPage1 : TPage := ⟨200, ["a", "b"], some "t1"⟩

def tPage2 : TPage := ⟨200, ["c"], some "t2"⟩

def tPage3 : TPage := ⟨200, ["d", "e"], none⟩

-- ================================================================
-- Shared lemmas
-- ================================================================

/-- The code's suppression test agrees with the claim's wording on every
already-collected entry. -/
theorem ignorable_eq_suppressed (s : String) (t : Option String) :
    _is_ignorable_warning (some s) t = suppressedPerClaim s t := by
  by_cases h : s = ""
  · subst h
    have h1 : ((("ok" : String) == "warning") = false) := by decide
    have h2 : ((pyLower (pyStrip "") == "warning") = false) := by decide
    simp [_is_ignorable_warning, suppressedPerClaim, _norm_status, h1, h2]
  · simp [_is_ignorable_warning, suppressedPerClaim, _norm_status, h]

mutual
/-- Each node contributes exactly one entry when unclean and none when clean,
so the collected entries of a node count its unclean descendants and itself. -/
theorem collectNode_length (m : ModuleNode) :
    (collectModuleProblems m).length = m.uncleanCount := by
  cases m with
  | mk i n fn st tx mods =>
    by_cases h : _norm_status st = "ok"
    · simp [collectModuleProblems, ModuleNode.uncleanCount, collectForest_length mods, h]
    · simp [collectModuleProblems, ModuleNode.uncleanCount, collectForest_length mods, h]
      omega

/-- The collected entries of a forest count its unclean nodes. -/
theorem collectForest_length (f : ModuleForest) :
    (_collect_problem_modules f).length = f.uncleanCount := by
  cases f with
  | nil => simp [_collect_problem_modules, ModuleForest.uncleanCount]
  | cons m rest =>
    simp [_collect_problem_modules, ModuleForest.uncleanCount, collectNode_length m,
      collectForest_length rest]
end

mutual
/-- A node has no unclean descendants-or-self exactly when it is clean. -/
theorem node_uncleanCount_zero (m : ModuleNode) :
    m.uncleanCount = 0 ↔ m.allClean = true := by
  cases m with
  | mk i n fn st tx mods =>
    by_cases h : _norm_status st = "ok"
    · simp [ModuleNode.uncleanCount, ModuleNode.allClean, h,
        forest_uncleanCount_zero mods]
    · simp [ModuleNode.uncleanCount, ModuleNode.allClean, h, beq_eq_false_iff_ne.mpr h]

/-- A forest has no unclean nodes exactly when every node is clean. -/
theorem forest_uncleanCount_zero (f : ModuleForest) :
    f.uncleanCount = 0 ↔ f.allClean = true := by
  cases f with
  | nil => simp [ModuleForest.uncleanCount, ModuleForest.allClean]
  | cons m rest =>
    simp [ModuleForest.uncleanCount, ModuleForest.allClean,
      node_uncleanCount_zero m, forest_uncleanCount_zero rest, Nat.add_eq_zero]
end

-- ================================================================
-- C1 : is_bad_wash against the claimed predicate
-- ================================================================

/-- C1 counterexample: a unit whose only signal is a top-level status.type of
"alarm" reaches the critical rank (rank 2), so the claim calls it bad, but
is_bad_wash returns false because the code compares against the literal
"error" only. -/
theorem is_bad_wash_claim_counterexample :
    is_bad_wash alarmOnlyWash = false ∧ is_bad_wash_claimed alarmOnlyWash = true := by
  decide

/-- C1 amended: is_bad_wash is true iff, after removing suppressed entries,
at least one problem entry collected from both module lists remains, or the
top-level status.type or status.online_type normalizes to exactly "error"
(not any severity of critical rank). -/
theorem is_bad_wash_eq_amended (w : Wash) : is_bad_wash w = is_bad_wash_amended w := by
  have hf : (fun p : Problem => ! _is_ignorable_warning (some p.2.1) p.2.2)
      = (fun p : Problem => ! suppressedPerClaim p.2.1 p.2.2) := by
    funext p
    rw [ignorable_eq_suppressed]
  simp only [is_bad_wash, is_bad_wash_amended, washProblemsPerClaim, hf]
  simp [Bool.or_assoc]

-- ================================================================
-- C2 : _worst tie-breaking and symmetry
-- ================================================================

/-- C2 counterexample: "ok" and "online" have equal rank, yet _worst returns
the first argument, not the second as the claim states. -/
theorem worst_tie_counterexample :
    SEVERITY_RANK "ok" = SEVERITY_RANK "online"
    ∧ _worst "ok" "online" = "ok" ∧ ("ok" : String) ≠ "online" := by
  decide

/-- C2 amended: on an exact rank tie _worst returns its first argument, and
when the ranks differ _worst is symmetric. -/
theorem worst_tie_first_and_symmetric (a b : String) :
    (SEVERITY_RANK a = SEVERITY_RANK b → _worst a b = a)
    ∧ (SEVERITY_RANK a ≠ SEVERITY_RANK b → _worst a b = _worst b a) := by
  constructor
  · intro h
    simp [_worst, h]
  · intro h
    unfold _worst
    rcases Nat.lt_or_ge (SEVERITY_RANK a) (SEVERITY_RANK b) with hlt | hge
    · rw [if_neg (by omega), if_pos (by omega)]
    · have hgt : SEVERITY_RANK b < SEVERITY_RANK a :=
        Nat.lt_of_le_of_ne hge (fun hh => h hh.symm)
      rw [if_pos hge, if_neg (by omega)]

/-- C2 witness: the tie branch at ("alarm", "error") and the symmetry branch
at ("ok", "error"). -/
theorem worst_tie_first_and_symmetric_witness :
    (SEVERITY_RANK "alarm" = SEVERITY_RANK "error" ∧ _worst "alarm" "error" = "alarm")
    ∧ (SEVERITY_RANK "ok" ≠ SEVERITY_RANK "error"
        ∧ _worst "ok" "error" = _worst "error" "ok") :=
  ⟨⟨by decide, (worst_tie_first_and_symmetric "alarm" "error").1 (by decide)⟩,
   ⟨by decide, (worst_tie_first_and_symmetric "ok" "error").2 (by decide)⟩⟩

-- ================================================================
-- C8 : the walk collects exactly the unclean nodes
-- ================================================================

/-- C8: the walk returns zero entries iff every node of the forest, all
descendants included, is clean; and it contributes exactly one entry per
unclean node (so a node contributes iff its normalized severity is not
clean). -/
theorem collect_problems_empty_iff_all_clean (f : ModuleForest) :
    (_collect_problem_modules f).length = f.uncleanCount
    ∧ ((_collect_problem_modules f = []) ↔ f.allClean = true) := by
  refine ⟨collectForest_length f, ?_⟩
  rw [← List.length_eq_zero, collectForest_length f, forest_uncleanCount_zero f]

-- ================================================================
-- C3 : fetch_units retries a 401 exactly once
-- ================================================================

/-- C3: when the first response is a 401, fetch_units performs exactly one
re-authentication (one sign_in beyond the initial one) and retries once: a
2xx second response is returned as the result, a second 401 is a terminal
authentication error (status 401) with no further retry. -/
theorem fetch_units_retries_401_once (r1 r2 : HttpResp) (rest : List HttpResp)
    (h : r1.status = 401) :
    (fetch_units (r1 :: r2 :: rest) false).2 = 1
    ∧ (is2xx r2.status = true → (fetch_units (r1 :: r2 :: rest) false).1 = .ok r2)
    ∧ (r2.status = 401 →
        (fetch_units (r1 :: r2 :: rest) false).1 = .error (.httpStatus 401)) := by
  have h401 : is2xx 401 = false := by decide
  refine ⟨?_, ?_, ?_⟩
  · by_cases h2 : is2xx r2.status <;> simp [fetch_units, h, h2]
  · intro h2
    simp [fetch_units, h, h2]
  · intro h2
    simp [fetch_units, h, h2, h401]

/-- C3 witness: a 401 followed by a 200 yields the second response with one
sign_in; a 401 followed by a 401 yields the authentication error with one
sign_in. -/
theorem fetch_units_retries_401_once_witness :
    ((⟨401, "expired"⟩ : HttpResp).status = 401
      ∧ is2xx (⟨200, "units"⟩ : HttpResp).status = true
      ∧ (fetch_units [⟨401, "expired"⟩, ⟨200, "units"⟩] false).1 = .ok ⟨200, "units"⟩
      ∧ (fetch_units [⟨401, "expired"⟩, ⟨200, "units"⟩] false).2 = 1)
    ∧ ((fetch_units [⟨401, "expired"⟩, ⟨401, "expired"⟩] false).1
          = .error (.httpStatus 401)
      ∧ (fetch_units [⟨401, "expired"⟩, ⟨401, "expired"⟩] false).2 = 1) :=
  ⟨⟨rfl, rfl,
    (fetch_units_retries_401_once ⟨401, "expired"⟩ ⟨200, "units"⟩ [] rfl).2.1 rfl,
    (fetch_units_retries_401_once ⟨401, "expired"⟩ ⟨200, "units"⟩ [] rfl).1⟩,
   ⟨(fetch_units_retries_401_once ⟨401, "expired"⟩ ⟨401, "expired"⟩ [] rfl).2.2 rfl,
    (fetch_units_retries_401_once ⟨401, "expired"⟩ ⟨401, "expired"⟩ [] rfl).1⟩⟩

-- ================================================================
-- C6 : a transaction feeds at most one channel, nothing if invalid
-- ================================================================

/-- C6: aggregating a single transaction adds exactly its per-channel
contribution; that contribution is never negative, is non-zero on at most one
channel, and vanishes on every channel when the record is cancelled or its
payment is not approved, regardless of the amounts present. -/
theorem revenue_single_channel_attribution (t : TransactionItem) :
    aggregate_revenue [t] = ⟨revenueContribution t .CASH, revenueContribution t .CARD,
      revenueContribution t .YANDEX_WASH⟩
    ∧ (∀ ch, 0 ≤ revenueContribution t ch)
    ∧ (∀ c1 c2, revenueContribution t c1 ≠ 0 → revenueContribution t c2 ≠ 0 → c1 = c2)
    ∧ ((t.cancelled = true ∨ t.payment.approved = false) →
        ∀ ch, revenueContribution t ch = 0) := by
  refine ⟨?_, ?_, ?_, ?_⟩
  · rcases hc : t.revenue_amount_and_channel with ⟨amt, och⟩
    rcases och with _ | ch
    · simp [aggregate_revenue, revenueContribution, hc]
    · by_cases hle : amt ≤ 0
      · simp [aggregate_revenue, revenueContribution, hc, hle]
      · cases ch <;> simp [aggregate_revenue, revenueContribution, hc, hle]
  · intro ch
    rcases hc : t.revenue_amount_and_channel with ⟨amt, och⟩
    rcases och with _ | c
    · simp [revenueContribution, hc]
    · by_cases hle : amt ≤ 0
      · simp [revenueContribution, hc, hle]
      · by_cases he : c = ch <;> simp [revenueContribution, hc, hle, he] <;> linarith
  · intro c1 c2 h1 h2
    rcases hc : t.revenue_amount_and_channel with ⟨amt, och⟩
    rcases och with _ | c
    · simp [revenueContribution, hc] at h1
    · by_cases hle : amt ≤ 0
      · simp [revenueContribution, hc, hle] at h1
      · by_cases he1 : c = c1
        · by_cases he2 : c = c2
          · rw [← he1, he2]
          · simp [revenueContribution, hc, hle, he2] at h2
        · simp [revenueContribution, hc, hle, he1] at h1
  · intro hbad ch
    have hzero : t.revenue_amount_and_channel = (0, none) := by
      rcases hbad with hb | hb
      · simp [TransactionItem.revenue_amount_and_channel, hb]
      · by_cases hcan : t.cancelled
        · simp [TransactionItem.revenue_amount_and_channel, hcan]
        · simp [TransactionItem.revenue_amount_and_channel, hcan,
            Payment.amount_and_channel, hb]
    simp [revenueContribution, hzero]

/-- C6 witness: the cancelled transaction with both amounts present
contributes zero to every channel, and a concrete application of the
uniqueness implication. -/
theorem revenue_single_channel_attribution_witness :
    ((cancelledTx.cancelled = true ∨ cancelledTx.payment.approved = false)
      ∧ revenueContribution cancelledTx .CASH = 0
      ∧ revenueContribution cancelledTx .CARD = 0
      ∧ revenueContribution cancelledTx .YANDEX_WASH = 0)
    ∧ (revenueContribution bothBodiesTx .CASH ≠ 0
      ∧ (RevenueChannel.CASH : RevenueChannel) = .CASH) :=
  ⟨⟨Or.inl rfl,
    (revenue_single_channel_attribution cancelledTx).2.2.2 (Or.inl rfl) .CASH,
    (revenue_single_channel_attribution cancelledTx).2.2.2 (Or.inl rfl) .CARD,
    (revenue_single_channel_attribution cancelledTx).2.2.2 (Or.inl rfl) .YANDEX_WASH⟩,
   ⟨by decide,
    (revenue_single_channel_attribution bothBodiesTx).2.2.1 .CASH .CASH (by decide) (by decide)⟩⟩

-- ================================================================
-- C10 : a cash body takes precedence over a cashless body
-- ================================================================

/-- C10: for an approved, non-cancelled transaction carrying both a cash body
and a cashless body, classification yields the cash amount on CASH, and no
other channel receives anything, whatever the cashless amount and issuer are. -/
theorem cash_body_precedence (t : TransactionItem)
    (h1 : t.cancelled = false) (h2 : t.payment.approved = true)
    (cb : CashBody) (h3 : t.payment.cash_body = some cb)
    (clb : CashlessBody) (h4 : t.payment.cashless_body = some clb) :
    t.revenue_amount_and_channel = (Payment._to_decimal t.payment.cash_amount, some .CASH)
    ∧ (∀ ch, ch ≠ RevenueChannel.CASH → revenueContribution t ch = 0) := by
  have hmain : t.revenue_amount_and_channel
      = (Payment._to_decimal t.payment.cash_amount, some .CASH) := by
    simp [TransactionItem.revenue_amount_and_channel, Payment.amount_and_channel, h1, h2, h3]
  refine ⟨hmain, ?_⟩
  intro ch hne
  have hne2 : ¬ (RevenueChannel.CASH = ch) := fun hh => hne hh.symm
  by_cases hle : Payment._to_decimal t.payment.cash_amount ≤ 0
  · simp [revenueContribution, hmain, hle]
  · simp [revenueContribution, hmain, hle, hne2]

/-- C10 witness: the concrete transaction carrying a cash body of 300 and a
cashless body of 150 with a partner issuer classifies as (300, CASH) and
contributes nothing to CARD or to the partner channel. -/
theorem cash_body_precedence_witness :
    (bothBodiesTx.cancelled = false ∧ bothBodiesTx.payment.approved = true
      ∧ bothBodiesTx.payment.cash_body = some ⟨some "300.00", some "CASH"⟩
      ∧ bothBodiesTx.payment.cashless_body
          = some ⟨some "150.00", some "CASHLESS", some "Yandex.Wash"⟩)
    ∧ bothBodiesTx.revenue_amount_and_channel
        = (Payment._to_decimal bothBodiesTx.payment.cash_amount, some .CASH)
    ∧ revenueContribution bothBodiesTx .CARD = 0
    ∧ revenueContribution bothBodiesTx .YANDEX_WASH = 0 :=
  ⟨⟨rfl, rfl, rfl, rfl⟩,
   (cash_body_precedence bothBodiesTx rfl rfl _ rfl _ rfl).1,
   (cash_body_precedence bothBodiesTx rfl rfl _ rfl _ rfl).2 .CARD (by decide),
   (cash_body_precedence bothBodiesTx rfl rfl _ rfl _ rfl).2 .YANDEX_WASH (by decide)⟩

-- ================================================================
-- C4 : a failed fetch aborts the cycle
-- ================================================================

/-- C4: when the unit fetch fails (after the configuration checks pass), the
cycle leaves the previous bad-state table completely unchanged and emits
exactly one error notification, with nothing else happening in the cycle. -/
theorem poll_fetch_error_leaves_state (cfg : PollConfig) (prev : List (Nat × String))
    (e : String) (h1 : cfg.wash_ids ≠ []) (h2 : cfg.tms_email ≠ "")
    (h3 : cfg.tms_password ≠ "") :
    _poll_and_send cfg prev (.error e) = (prev, [.pollError e]) := by
  have hw : cfg.wash_ids.isEmpty = false := by
    cases hcw : cfg.wash_ids with
    | nil => exact absurd hcw h1
    | cons x xs => rfl
  have he : (cfg.tms_email == "") = false := beq_eq_false_iff_ne.mpr h2
  have hp : (cfg.tms_password == "") = false := beq_eq_false_iff_ne.mpr h3
  simp [_poll_and_send, hw, he, hp]

/-- C4 witness: a concrete configured cycle with a failing fetch keeps the
table and emits the single error notification. -/
theorem poll_fetch_error_leaves_state_witness :
    (pollCfg.wash_ids ≠ [] ∧ pollCfg.tms_email ≠ "" ∧ pollCfg.tms_password ≠ "")
    ∧ _poll_and_send pollCfg [(1, "fpA")] (.error "network down")
        = ([(1, "fpA")], [.pollError "network down"]) :=
  ⟨⟨by decide, by decide, by decide⟩,
   poll_fetch_error_leaves_state pollCfg [(1, "fpA")] "network down"
     (by decide) (by decide) (by decide)⟩

-- ================================================================
-- C5 : recovered units are reported once, batched, by display name
-- ================================================================

/-- C5: after a successful fetch the new table is current_bad; every unit id
of the previous table absent from current_bad (none of which have an entry in
current_bad) appears, paired with its display name, in exactly one batched
recovered notification, and no recovered notification is emitted when no unit
recovered. -/
theorem poll_recovered_notification (cfg : PollConfig) (prev : List (Nat × String))
    (data : List Wash) (h1 : cfg.wash_ids ≠ []) (h2 : cfg.tms_email ≠ "")
    (h3 : cfg.tms_password ≠ "") :
    (_poll_and_send cfg prev (.ok data)).1 = currentBadOf data
    ∧ (∀ uid ∈ recoveredIdsOf prev data, (currentBadOf data).lookup uid = none)
    ∧ ((_poll_and_send cfg prev (.ok data)).2.filter Notification.isRecovered
        = if (recoveredIdsOf prev data).isEmpty then []
          else [Notification.recovered ((recoveredIdsOf prev data).map
            (fun uid => (uid, recoveredNameOf data uid)))]) := by
  have hw : cfg.wash_ids.isEmpty = false := by
    cases hcw : cfg.wash_ids with
    | nil => exact absurd hcw h1
    | cons x xs => rfl
  have he : (cfg.tms_email == "") = false := beq_eq_false_iff_ne.mpr h2
  have hp : (cfg.tms_password == "") = false := beq_eq_false_iff_ne.mpr h3
  refine ⟨?_, ?_, ?_⟩
  · simp [_poll_and_send, hw, he, hp]
  · intro uid hmem
    exact Option.isNone_iff_eq_none.mp (List.mem_filter.mp hmem).2
  · simp only [_poll_and_send, hw, he, hp]
    by_cases hcb : (currentBadOf data).isEmpty <;>
      by_cases hri : (recoveredIdsOf prev data).isEmpty <;>
        by_cases hcl : (changedLinesOf prev data).isEmpty <;>
          simp [hcb, hri, hcl, Notification.isRecovered]

/-- C5 witness: with unit 1 previously bad and now clean, the cycle emits the
single batched recovered notification naming unit 1, and the new table is
empty. -/
theorem poll_recovered_notification_witness :
    (pollCfg.wash_ids ≠ [] ∧ pollCfg.tms_email ≠ "" ∧ pollCfg.tms_password ≠ "")
    ∧ ((_poll_and_send pollCfg [(1, "fpA")] (.ok [cleanWash1])).2.filter
        Notification.isRecovered = [Notification.recovered [(1, "Wash One")]])
    ∧ (_poll_and_send pollCfg [(1, "fpA")] (.ok [cleanWash1])).1 = [] := by
  refine ⟨⟨by decide, by decide, by decide⟩, ?_, ?_⟩
  · have h := (poll_recovered_notification pollCfg [(1, "fpA")] [cleanWash1]
      (by decide) (by decide) (by decide)).2.2
    rw [h]
    decide
  · have h := (poll_recovered_notification pollCfg [(1, "fpA")] [cleanWash1]
      (by decide) (by decide) (by decide)).1
    rw [h]
    decide

-- ================================================================
-- C7 : pagination concatenates all pages in order
-- ================================================================

/-- On a chain of successful pages whose every response except the last
carries a truthy token and whose last does not, the pagination loop sends the
previous token with each request, accumulates every page and returns the
concatenation. -/
theorem fetch_transactions_go_success_chain (pages : List TPage) :
    ∀ (tok : Option String) (acc : List String) (sent : List (Option String)),
    pages ≠ [] →
    (∀ p ∈ pages, is2xx p.status = true) →
    (∀ p ∈ pages.dropLast, tokTruthy p.next_id = true) →
    (∀ p, pages.getLast? = some p → tokTruthy p.next_id = false) →
    fetch_transactions_go pages false tok acc sent
      = (sent ++ tok :: pages.dropLast.map (fun p => p.next_id), 0,
         .ok (acc ++ (pages.map (fun p => p.items)).flatten)) := by
  induction pages with
  | nil =>
    intro tok acc sent hne _ _ _
    exact absurd rfl hne
  | cons p rest ih =>
    intro tok acc sent _ h2xx hmid hlast
    have hp2xx : is2xx p.status = true := h2xx p (by simp)
    have hp401 : (p.status == 401) = false := by
      have hlt : 200 ≤ p.status ∧ p.status < 300 := by
        have hh := hp2xx
        simp [is2xx] at hh
        exact hh
      exact beq_eq_false_iff_ne.mpr (by omega)
    cases rest with
    | nil =>
      have hl : tokTruthy p.next_id = false := hlast p (by simp)
      simp [fetch_transactions_go, hp401, hp2xx, hl]
    | cons q rest2 =>
      have hmidp : tokTruthy p.next_id = true := hmid p (by simp)
      have hstep := ih p.next_id (acc ++ p.items) (sent ++ [tok]) (by simp)
        (fun x hx => h2xx x (by simp [hx]))
        (fun x hx => hmid x (by
          rw [List.dropLast_cons₂]
          exact List.mem_cons_of_mem p hx))
        (fun x hx => hlast x (by rw [List.getLast?_cons_cons]; exact hx))
      rw [fetch_transactions_go]
      simp only [hp401, hp2xx, hmidp, Bool.not_false, Bool.and_true, Bool.false_and,
        Bool.and_false, if_false, if_true, Bool.false_eq_true, ite_false, ite_true]
      rw [hstep]
      simp [List.dropLast_cons₂, List.append_assoc]

/-- C7: for a response sequence in which every page except the last carries a
next-page token and the last does not, fetch_transactions sends no token on
the first request and each page's token on the following one, and returns the
items of all pages concatenated in page order. -/
theorem fetch_transactions_pagination (pages : List TPage)
    (hne : pages ≠ [])
    (h2xx : ∀ p ∈ pages, is2xx p.status = true)
    (hmid : ∀ p ∈ pages.dropLast, tokTruthy p.next_id = true)
    (hlast : ∀ p, pages.getLast? = some p → tokTruthy p.next_id = false) :
    fetch_transactions pages
      = (none :: pages.dropLast.map (fun p => p.next_id), 0,
         .ok ((pages.map (fun p => p.items)).flatten)) := by
  have h := fetch_transactions_go_success_chain pages none [] [] hne h2xx hmid hlast
  simpa [fetch_transactions] using h

/-- C7 witness: three synthetic pages, the first two carrying tokens t1 and
t2; the requests carry none, t1, t2 and the result concatenates the items of
the three pages in order. -/
theorem fetch_transactions_pagination_witness :
    (([tPage1, tPage2, tPage3] : List TPage) ≠ []
      ∧ (∀ p ∈ [tPage1, tPage2, tPage3], is2xx p.status = true)
      ∧ (∀ p ∈ [tPage1, tPage2, tPage3].dropLast, tokTruthy p.next_id = true)
      ∧ (∀ p, [tPage1, tPage2, tPage3].getLast? = some p → tokTruthy p.next_id = false))
    ∧ fetch_transactions [tPage1, tPage2, tPage3]
        = ([none, some "t1", some "t2"], 0, .ok ["a", "b", "c", "d", "e"]) := by
  refine ⟨⟨by decide, by decide, by decide, by decide⟩, ?_⟩
  have h := fetch_transactions_pagination [tPage1, tPage2, tPage3]
    (by decide) (by decide) (by decide) (by decide)
  rw [h]
  rfl
